import Mathlib

/-!
Verification development for the nsemine repository.

Shallow embedding of the library's core components:
* the file-based cookie store (`save_cookie` / `load_cookie` in `nsemine_lite.py`),
* the session fetcher (`_refresh_cookie`, `_http_get` in `nsemine_lite.py` and
  `get_request` in `nsemine/bin/scraper.py`),
* the multi-codec decompression ladder (`decompress_data` in
  `nsemine/utilities/utils.py` and `request_helper.py`, both identical),
* the response normalizer (`process_historical_chart_response`,
  `remove_pre_and_post_market_prices_from_df` in `nsemine_lite.py`, plus the
  processing tail of `fetch_historical_data` in `nsemine/stocks.py`).

Conventions of the embedding:
* epoch timestamps are `Int` (milliseconds for the lite normalizer, seconds for
  the stocks module and the cookie store), mirroring the units used at each call
  site in the source;
* a Python function that can raise an exception which is caught by its caller
  (returning `None`) is embedded as an `Option`-returning function;
* external HTTP effects are abstracted by an environment: the outcome of each
  physical attempt against the target URL is a `Nat → Option Nat`
  (`some status` for a response with that HTTP status code, `none` for a
  transport-level exception such as a timeout or connection error), and the
  cookie harvested by the bootstrap request is an `Option Cookie`
  (`none` when the bootstrap GET itself raises);
* `time.sleep` durations are accumulated as exact rationals.
-/

namespace NSEmine

/-! ## Cookie store (`nsemine_lite.py`, `save_cookie` / `load_cookie`) -/

/-- A cookie bundle: a mapping of cookie names to string values, embedded as an
association list (insertion order is irrelevant to the claims). -/
def Cookie := List (String × String)

deriving instance DecidableEq for Cookie

instance : Inhabited Cookie := ⟨([] : List (String × String))⟩

/-- `COOKIE_TTL = timedelta(hours=2)` expressed in seconds. -/
def COOKIE_TTL_SECONDS : Int := 7200

/-- The observable state of the cookie cache file, as `load_cookie` sees it:
the file may be missing, fail to parse as JSON, parse but lack the
`"timestamp"` key, or hold a cookie dict together with its capture time
(epoch seconds). -/
inductive CacheState
  | missing
  | malformed
  | noTimestamp
  | stored (cookie : Cookie) (capturedAt : Int)
deriving DecidableEq

/-- `load_cookie()`: returns the stored cookie dict if the file exists, parses,
carries a timestamp, and `datetime.now() - ts < COOKIE_TTL`; otherwise `None`.
Every exception inside the body is swallowed (`except Exception: return None`),
so the missing/malformed cases are plain `none` results. `now` is the current
time in epoch seconds. -/
def load_cookie (cache : CacheState) (now : Int) : Option Cookie :=
  match cache with
  | .missing => none
  | .malformed => none
  | .noTimestamp => none
  | .stored c capturedAt =>
      if now - capturedAt < COOKIE_TTL_SECONDS then some c else none

/-! ## Session fetcher (`nsemine_lite.py`, `_refresh_cookie` / `_http_get`) -/

/-- The cookie filter inside `_refresh_cookie`: keep only the `nsit` and
`nseappid` keys, falling back to the full dict when neither is present.
(The source also checks that each value `is not None`; `get_dict()` values are
strings, so that check is always true and is dropped here.) -/
def filterCookie (c : Cookie) : Cookie :=
  let f := (c : List (String × String)).filter
    (fun kv => kv.1 = "nsit" || kv.1 = "nseappid")
  if f = ([] : List (String × String)) then c else f

/-- The mutable state threaded through one `_http_get` call: the cookie cache
file (shared with `save_cookie`/`load_cookie`) and a count of bootstrap
requests (GETs to the `first_boy` warm-up URL) issued so far. -/
structure SessionSt where
  cache : CacheState
  bootstrapCount : Nat
deriving DecidableEq

/-- `_refresh_cookie(session)`: load the cached cookie; `if cookie:` — the
loaded dict is reused (and returned unchanged) only when it is truthy, i.e.
present AND non-empty; a missing, stale, or empty loaded dict falls through
to one bootstrap GET against the warm-up URL.  `bres` is the cookie dict the
bootstrap request would harvest (`none` when that GET raises).  On a harvest
of a truthy dict (`if cookie_dict:`) the filtered cookie is saved
(`save_cookie`), updating the cache; on an exception or an empty dict the
function returns `{}` and the cache is left unchanged.  Returns the resulting
cookie dict together with the updated state. -/
def refresh_cookie (now : Int) (bres : Option Cookie) (s : SessionSt) :
    Cookie × SessionSt :=
  let boot : Cookie × SessionSt :=
    let s1 : SessionSt := ⟨s.cache, s.bootstrapCount + 1⟩
    match bres with
    | none => (([] : List (String × String)), s1)
    | some harvested =>
        if harvested = ([] : List (String × String)) then
          (([] : List (String × String)), s1)
        else
          let filtered := filterCookie harvested
          (filtered, ⟨CacheState.stored filtered now, s1.bootstrapCount⟩)
  match load_cookie s.cache now with
  | some c =>
      if c = ([] : List (String × String)) then boot else (c, s)
  | none => boot

/-- The outcome of one physical GET inside the retry loop, after
`resp.raise_for_status()`: `requests` raises `HTTPError` exactly for status
codes in `[400, 600)`, and any transport-level exception (`oc attempt = none`)
is also a `RequestException`.  The result is `some status` when the attempt
returns normally and `none` when a `RequestException` is caught. -/
def attemptResult (o : Option Nat) : Option Nat :=
  match o with
  | some status => if 400 ≤ status ∧ status < 600 then none else some status
  | none => none

/-- Per-call statistics of the retry loop, used to state the claims:
number of physical attempts against the target URL, number of bootstrap GETs
issued from inside the loop (by the first-attempt cookie refresh), and the
list of `time.sleep` durations in seconds, in order. -/
structure RunStats where
  attempts : Nat
  loopBootstraps : Nat
  sleeps : List ℚ
deriving DecidableEq

/-- Result of `_http_get`: the returned response status (`none` when all
attempts were exhausted), the final session state, and the loop statistics. -/
structure HttpRes where
  res : Option Nat
  finalSt : SessionSt
  stats : RunStats
deriving DecidableEq

/-- The retry loop of `_http_get`:
`for attempt in range(max_retries)`, issue the GET; on success return the
response immediately; on a caught `RequestException` refresh the cookie when
`attempt == 0`, then `time.sleep(1.5 ** attempt)` and continue; after the loop
return `None`.  `fuel` is the number of remaining iterations. -/
def httpGetLoop (oc : Nat → Option Nat) (now : Int) (bres : Option Cookie) :
    Nat → Nat → SessionSt → HttpRes
  | 0, _, s => ⟨none, s, ⟨0, 0, []⟩⟩
  | fuel + 1, attempt, s =>
      match attemptResult (oc attempt) with
      | some status => ⟨some status, s, ⟨1, 0, []⟩⟩
      | none =>
          let s' := if attempt = 0 then (refresh_cookie now bres s).2 else s
          let nb := s'.bootstrapCount - s.bootstrapCount
          let r := httpGetLoop oc now bres fuel (attempt + 1) s'
          ⟨r.res, r.finalSt,
            ⟨r.stats.attempts + 1, r.stats.loopBootstraps + nb,
              ((3 : ℚ) / 2) ^ attempt :: r.stats.sleeps⟩⟩

/-- `_http_get(url, payload, headers, max_retries, timeout)`: create a fresh
session, run `_refresh_cookie` once up front, then run the retry loop.
The clock is held fixed at `now` for the duration of the call. -/
def http_get (oc : Nat → Option Nat) (cache0 : CacheState) (now : Int)
    (bres : Option Cookie) (max_retries : Nat) : HttpRes :=
  let s0 : SessionSt := ⟨cache0, 0⟩
  let s1 := (refresh_cookie now bres s0).2
  httpGetLoop oc now bres max_retries 0 s1

/-! ## Scraper fetch loop (`nsemine/bin/scraper.py`, `get_request`) -/

/-- One attempt inside `get_request`'s loop: `raise_for_status()` raises
`HTTPError` for statuses in `[400, 600)` (caught: sleep and retry);
a surviving response is returned only when `status_code == 200`; any other
surviving status falls through to `time.sleep` and the next iteration, which
is the same observable behavior as the caught-exception branches (the four
`except` arms differ only in the printed message). -/
def getAttemptResult (o : Option Nat) : Option Nat :=
  match o with
  | some status =>
      if 400 ≤ status ∧ status < 600 then none
      else if status = 200 then some status
      else none
  | none => none

/-- Statistics for `get_request`: physical attempts against the target URL and
`time.sleep` durations in order. -/
structure GStats where
  attempts : Nat
  sleeps : List ℚ
deriving DecidableEq

/-- Result of `get_request`. -/
structure GetRes where
  res : Option Nat
  stats : GStats
deriving DecidableEq

/-- The `for retry_count in range(3)` loop of `get_request`: each iteration
computes `sleep_time = 2**retry_count + time.time() % 1` (`j idx` is the
jitter term, a value in `[0, 1)`), issues the GET, returns on a 200 response,
and otherwise sleeps `sleep_time` and continues.  After the loop, `None`. -/
def getRequestLoop (oc : Nat → Option Nat) (j : Nat → ℚ) :
    Nat → Nat → GetRes
  | 0, _ => ⟨none, ⟨0, []⟩⟩
  | fuel + 1, idx =>
      match getAttemptResult (oc idx) with
      | some status => ⟨some status, ⟨1, []⟩⟩
      | none =>
          let r := getRequestLoop oc j fuel (idx + 1)
          ⟨r.res, ⟨r.stats.attempts + 1,
            ((2 : ℚ) ^ idx + j idx) :: r.stats.sleeps⟩⟩

/-- Whether an `initial_url` warm-up argument was supplied to `get_request`,
and if so whether the warm-up GET (issued before the retry loop, inside the
outer `try`) returns normally or raises. -/
inductive Warmup
  | noUrl
  | ok
  | raisesErr
deriving DecidableEq

/-- `get_request(url, headers, params, initial_url)`: when `initial_url` is
supplied, one warm-up GET is issued before the retry loop; if it raises, the
outer `except Exception` returns `None` with zero attempts made.  Otherwise
the three-iteration retry loop runs. -/
def get_request (w : Warmup) (oc : Nat → Option Nat) (j : Nat → ℚ) : GetRes :=
  match w with
  | .raisesErr => ⟨none, ⟨0, []⟩⟩
  | .noUrl => getRequestLoop oc j 3 0
  | .ok => getRequestLoop oc j 3 0

/-! ## Codec detector (`decompress_data`, identical in
`nsemine/utilities/utils.py` and `request_helper.py`) -/

/-- Outcome of the gzip attempt: success; a failure of the exception class the
source catches (`except OSError`, which includes `BadGzipFile`); or a failure
of an exception class the source does NOT catch and which therefore
propagates out of `decompress_data` — `gzip.GzipFile(...).read()` raises
`EOFError` on a truncated stream and `zlib.error` on a gzip-magic blob with a
corrupt deflate body, and neither is an `OSError`. -/
inductive CodecOutcome
  | ok (plain : List Nat)
  | caught
  | uncaught
deriving DecidableEq

/-- The five decompression attempts, abstracted.  The gzip rung distinguishes
caught from uncaught failures (see `CodecOutcome`); the remaining rungs are
`Option`-valued (`none` = a failure of the data-error class their `except`
clauses name: `zlib.error` for both zlib attempts, `brotli.error`,
`zstandard.ZstdError`).  Bytes are `List Nat`. -/
structure CodecEnv where
  gzip : List Nat → CodecOutcome
  zlibStd : List Nat → Option (List Nat)
  zlibRaw : List Nat → Option (List Nat)
  brotli : List Nat → Option (List Nat)
  zstd : List Nat → Option (List Nat)

/-- `compressed_data.startswith(b'\x1f\x8b')`: the two-byte gzip magic. -/
def hasGzipMagic (b : List Nat) : Bool :=
  match b with
  | x :: y :: _ => x = 0x1f && y = 0x8b
  | _ => false

/-- The ladder below the gzip branch: zlib with default window bits, then raw
deflate (`wbits=-zlib.MAX_WBITS`), then brotli, then zstd; if every attempt
fails, the original bytes are returned verbatim. -/
def decompressTail (env : CodecEnv) (b : List Nat) : List Nat :=
  match env.zlibStd b with
  | some r => r
  | none =>
      match env.zlibRaw b with
      | some r => r
      | none =>
          match env.brotli b with
          | some r => r
          | none =>
              match env.zstd b with
              | some r => r
              | none => b

/-- `decompress_data(compressed_data)`: empty input returns `b""`; when the
input starts with the gzip magic, gzip is attempted first — an `OSError`
(`except OSError: pass`) falls through to the remaining ladder, while an
exception of any other class is not caught and propagates to the caller,
modelled as `Except.error ()`. -/
def decompress_data (env : CodecEnv) (b : List Nat) : Except Unit (List Nat) :=
  if b = [] then .ok []
  else if hasGzipMagic b then
    match env.gzip b with
    | .ok r => .ok r
    | .caught => .ok (decompressTail env b)
    | .uncaught => .error ()
  else .ok (decompressTail env b)

/-! ## Tabular model (pandas DataFrames)

A DataFrame is a named-column table.  Cells are `Int`: the only column the
normalizer transforms arithmetically is the timestamp column, and
`pd.to_datetime` on epoch values is an injective, order-preserving change of
representation, embedded as the identity on the underlying epoch value
(milliseconds in the lite normalizer, seconds in the stocks module).
Row positions are the dense zero-based index, so `reset_index(drop=True)` is
the identity of the list model. -/

/-- A row of cells, addressed positionally through the column list. -/
abbrev Row := List Int

/-- A pandas DataFrame: column names plus rows of cells. -/
structure Frame where
  cols : List String
  rows : List Row
deriving DecidableEq

/-- Index of a column name in a column list (`df.columns.get_loc`), `none`
when the column is absent (a `KeyError` in pandas). -/
def colIdx (name : String) : List String → Option Nat
  | [] => none
  | c :: cs => if c = name then some 0 else (colIdx name cs).map (· + 1)

/-- Indices of several column names; `none` if any is absent. -/
def colIdxs (names cols : List String) : Option (List Nat) :=
  match names with
  | [] => some []
  | n :: ns =>
      match colIdx n cols, colIdxs ns cols with
      | some i, some is => some (i :: is)
      | _, _ => none

/-- `df[[n1, ..., nk]]`: select (and reorder) columns; `KeyError` (`none`)
when any requested column is missing. -/
def selectCols (names : List String) (f : Frame) : Option Frame :=
  match colIdxs names f.cols with
  | none => none
  | some idxs =>
      some ⟨names, f.rows.map (fun r => idxs.map (fun i => r.getD i 0))⟩

/-- `df.rename(columns={old: new})`. -/
def renameCol (old new : String) (f : Frame) : Frame :=
  ⟨f.cols.map (fun c => if c = old then new else c), f.rows⟩

/-- Apply `g` to the cell at position `i` of a row. -/
def updAt (i : Nat) (g : Int → Int) : Row → Row
  | [] => []
  | x :: xs =>
      match i with
      | 0 => g x :: xs
      | i + 1 => x :: updAt i g xs

/-- `df[name] = df[name].map(g)`: transform one column in place; `none` when
the column is missing. -/
def mapCol (name : String) (g : Int → Int) (f : Frame) : Option Frame :=
  match colIdx name f.cols with
  | none => none
  | some i => some ⟨f.cols, f.rows.map (updAt i g)⟩

/-- `df[pred(df[name])]`: keep the rows whose cell in column `name` satisfies
`p`; `none` when the column is missing. -/
def filterOnCol (name : String) (p : Int → Bool) (f : Frame) : Option Frame :=
  match colIdx name f.cols with
  | none => none
  | some i => some ⟨f.cols, f.rows.filter (fun r => p (r.getD i 0))⟩

/-- The values of one column, `none` when the column is missing. -/
def colVals (name : String) (f : Frame) : Option (List Int) :=
  (colIdx name f.cols).map (fun i => f.rows.map (fun r => r.getD i 0))

/-- `colVals` with `[]` for a missing column. -/
def colValsD (name : String) (f : Frame) : List Int :=
  (colVals name f).getD []

/-! ## Response normalizer (`nsemine_lite.py`) -/

/-- The source column names of a raw chart payload row. -/
def srcCols : List String := ["time", "open", "high", "low", "close", "volume"]

/-- The canonical column names after renaming `time` to `datetime`. -/
def canonCols : List String :=
  ["datetime", "open", "high", "low", "close", "volume"]

/-- Time-of-day session filter of the lite
`remove_pre_and_post_market_prices_from_df`: keep rows whose time-of-day `t`
(epoch milliseconds) satisfies `09:15:00 <= t < 15:30:00`
(`33300000` and `55800000` ms after midnight). -/
def inSession (t : Int) : Bool :=
  33300000 ≤ t.emod 86400000 && t.emod 86400000 < 55800000

/-- `remove_pre_and_post_market_prices_from_df(df, unit='ms', interval=3)` of
`nsemine_lite.py`: copies the `datetime` column into a temporary
datetime-typed column, derives a time-of-day column, keeps in-session rows and
drops the two temporary columns again — net effect, a row filter on the
`datetime` column.  A missing `datetime` column is a `KeyError`, re-raised
(`raise e`) to the caller, hence `none`. -/
def remove_pre_and_post_market_prices_from_df (df : Frame) : Option Frame :=
  filterOnCol "datetime" inSession df

/-- The minute-rounding lambda of `process_historical_chart_response`:
`dt.replace(second=0, microsecond=0) + timedelta(minutes=1) if dt.second > 1
else dt.replace(second=0, microsecond=0)`, on epoch milliseconds: clear the
sub-minute part, rounding up when the seconds component is at least 2. -/
def roundMinute (t : Int) : Int :=
  if 2000 ≤ t.emod 60000 then t - t.emod 60000 + 60000 else t - t.emod 60000

/-- `minutes = int(interval) if str(interval) == '1' else 5`: the interval in
minutes used for the offset, which the source clamps to 5 for every interval
other than `'1'`.  (The `except` branch setting the offset to 0 is
unreachable: `int` is applied only when the string equals `'1'`.) -/
def liteMinutes (interval : String) : Int :=
  if interval = "1" then 1 else 5

/-- `time_offset_seconds = (minutes - 1) * 60 + 59` in
`process_historical_chart_response`. -/
def liteOffsetSeconds (interval : String) : Int :=
  (liteMinutes interval - 1) * 60 + 59

/-- `process_historical_chart_response(df, interval, start_datetime,
end_datetime)` of `nsemine_lite.py`: select the six source columns (a
`KeyError`, hence `none`, when any is missing — the surrounding `except`
returns `None`), rename `time` to `datetime`; for `'D'`/`'W'`/`'M'` intervals
convert to datetime and return; otherwise filter the session window, subtract
`time_offset_seconds * 1000`, convert to datetime and round to the minute.
`start_datetime`/`end_datetime` are accepted but unused, as in the source. -/
def process_historical_chart_response (df : Frame) (interval : String)
    (start_datetime end_datetime : Int) : Option Frame :=
  (selectCols srcCols df).bind (fun d0 =>
    let d1 := renameCol "time" "datetime" d0
    if interval = "D" ∨ interval = "W" ∨ interval = "M" then
      some d1
    else
      (remove_pre_and_post_market_prices_from_df d1).bind (fun d2 =>
        (mapCol "datetime"
            (fun t => t - liteOffsetSeconds interval * 1000) d2).bind (fun d3 =>
          mapCol "datetime" roundMinute d3)))

/-- Membership test on the list of already-seen keys. -/
def seenHas (k : Int) : List Int → Bool
  | [] => false
  | x :: xs => if x = k then true else seenHas k xs

/-- Row-level duplicate removal keeping the first occurrence of each key
(the cell at position `i`), the semantics of
`df.drop_duplicates(subset=[...], keep='first')`. -/
def dedupRowsBy (i : Nat) (seen : List Int) : List Row → List Row
  | [] => []
  | r :: rs =>
      if seenHas (r.getD i 0) seen then dedupRowsBy i seen rs
      else r :: dedupRowsBy i (r.getD i 0 :: seen) rs

/-- Key-level duplicate removal keeping first occurrences. -/
def dedupKeys (seen : List Int) : List Int → List Int
  | [] => []
  | k :: ks =>
      if seenHas k seen then dedupKeys seen ks
      else k :: dedupKeys (k :: seen) ks

/-- `df.drop_duplicates(subset=['datetime'])`; `none` when the `datetime`
column is missing (`KeyError`). -/
def drop_duplicates_datetime (f : Frame) : Option Frame :=
  match colIdx "datetime" f.cols with
  | none => none
  | some i => some ⟨f.cols, dedupRowsBy i [] f.rows⟩

/-- The non-raw tail of `__fetch_historical_data` (identical in
`nsemine_lite.py` and `nsemine/historical.py`):
`process_historical_chart_response` followed by
`df.drop_duplicates(subset=['datetime']).reset_index(drop=True)` — when the
normalizer returned `None`, `.drop_duplicates` on `None` raises
`AttributeError`, caught by the surrounding `except`, so the call returns
`None`.  `reset_index(drop=True)` is the identity on the positional model. -/
def fetch_pipeline (df : Frame) (interval : String)
    (start_datetime end_datetime : Int) : Option Frame :=
  (process_historical_chart_response df interval
      start_datetime end_datetime).bind drop_duplicates_datetime

/-- A list of timestamps is ascending (adjacent-pairs check). -/
def sortedAsc : List Int → Bool
  | [] => true
  | [_] => true
  | a :: b :: l => decide (a ≤ b) && sortedAsc (b :: l)

/-! ## Stocks module processing tail (`nsemine/stocks.py`,
`fetch_historical_data`) -/

/-- `datetime.timedelta(minutes=interval - 1, seconds=59).seconds`:
`timedelta` normalizes to days plus a seconds field in `[0, 86400)`, so
`.seconds` is `((interval - 1) * 60 + 59) mod 86400`. -/
def stocksTimeOffsetSeconds (interval : Int) : Int :=
  ((interval - 1) * 60 + 59).emod 86400

/-- Session filter of `nsemine/utilities/utils.py`'s
`remove_pre_and_post_market_prices_from_df` (the variant the stocks module
uses), on epoch seconds: keep rows with `09:14:00 < t < 15:31:00` strictly
(`33240` and `55860` seconds after midnight). On any exception it returns the
input unchanged — with the `datetime` column guaranteed by the caller the
filter always applies. -/
def utilsInSession (t : Int) : Bool :=
  33240 < t.emod 86400 && t.emod 86400 < 55860

/-- `utils.remove_pre_and_post_market_prices_from_df(df)`: filter on the
`datetime` column; the `except` arm returns the frame unchanged when the
column is missing. -/
def utils_remove_pre_and_post_market_prices_from_df (df : Frame) : Frame :=
  match filterOnCol "datetime" utilsInSession df with
  | some g => g
  | none => df

/-- The non-raw processing tail of `fetch_historical_data` in
`nsemine/stocks.py`: `df.columns = ['datetime', 'open', 'high', 'low',
'close', 'volume']` (a `ValueError`, hence `None` through the `except`, unless
the frame has exactly six columns), subtract
`timedelta(minutes=interval-1, seconds=59).seconds` from the timestamps
(epoch seconds), convert to datetime, and apply the utils session filter. -/
def fetch_historical_data_tail (df : Frame) (interval : Int) : Option Frame :=
  if df.cols.length = 6 then
    let d1 : Frame := ⟨canonCols, df.rows⟩
    match mapCol "datetime" (fun t => t - stocksTimeOffsetSeconds interval) d1 with
    | none => none
    | some d2 => some (utils_remove_pre_and_post_market_prices_from_df d2)
  else none

/-! ## Helper lemmas -/

/-- Column selection fixes the output column names. -/
theorem selectCols_cols {names : List String} {f g : Frame}
    (h : selectCols names f = some g) : g.cols = names := by
  unfold selectCols at h
  cases hidx : colIdxs names f.cols with
  | none => rw [hidx] at h; exact absurd h (by simp)
  | some idxs => rw [hidx] at h; cases h; rfl

/-- Row filtering keeps the column names. -/
theorem filterOnCol_cols {n : String} {p : Int → Bool} {f g : Frame}
    (h : filterOnCol n p f = some g) : g.cols = f.cols := by
  unfold filterOnCol at h
  cases hidx : colIdx n f.cols with
  | none => rw [hidx] at h; exact absurd h (by simp)
  | some i => rw [hidx] at h; cases h; rfl

/-- Column transformation keeps the column names. -/
theorem mapCol_cols {n : String} {g : Int → Int} {f h : Frame}
    (hm : mapCol n g f = some h) : h.cols = f.cols := by
  unfold mapCol at hm
  cases hidx : colIdx n f.cols with
  | none => rw [hidx] at hm; exact absurd hm (by simp)
  | some i => rw [hidx] at hm; cases hm; rfl

/-- Every successful run of the normalizer produces a table carrying exactly
the canonical column names. -/
theorem process_cols {df : Frame} {interval : String} {s e : Int} {out : Frame}
    (h : process_historical_chart_response df interval s e = some out) :
    out.cols = canonCols := by
  unfold process_historical_chart_response at h
  rw [Option.bind_eq_some] at h
  obtain ⟨d0, hsel, h⟩ := h
  have hd0 : d0.cols = srcCols := selectCols_cols hsel
  have hren : (renameCol "time" "datetime" d0).cols = canonCols := by
    unfold renameCol
    rw [hd0]; rfl
  dsimp only at h
  split at h
  · cases h; exact hren
  · rw [Option.bind_eq_some] at h
    obtain ⟨d2, hrem, h⟩ := h
    rw [Option.bind_eq_some] at h
    obtain ⟨d3, hoff, h⟩ := h
    have hd2 : d2.cols = canonCols := (filterOnCol_cols hrem).trans hren
    exact (mapCol_cols h).trans ((mapCol_cols hoff).trans hd2)

/-! ## Claim C5 -/

/-- Claim C5: a credential bundle saved with capture timestamp `T` is returned
by `load_cookie` exactly for query times strictly before `T + 2h`, and
`load_cookie` returns `none`, without raising, when the cache file is missing,
malformed, or lacks a timestamp. -/
theorem c5_cookie_ttl (c : Cookie) (t now : Int) :
    (load_cookie (.stored c t) now = some c ↔ now < t + 7200) ∧
    (load_cookie (.stored c t) now = none ↔ t + 7200 ≤ now) ∧
    load_cookie .missing now = none ∧
    load_cookie .malformed now = none ∧
    load_cookie .noTimestamp now = none := by
  refine ⟨?_, ?_, rfl, rfl, rfl⟩ <;>
    simp only [load_cookie, COOKIE_TTL_SECONDS] <;> split <;>
      simp <;> omega

/-! ## Claim C9 -/

/-- Claim C9 (amended): normalization is not idempotent.  A successful run of
the normalizer produces a table whose columns are the canonical names, which
no longer include the source column `time`; re-applying the normalizer to its
own output therefore fails the column selection and returns absence (`none`),
never an identical table. -/
theorem c9_not_idempotent (df : Frame) (interval : String) (s e : Int)
    (out : Frame) (interval' : String) (s' e' : Int)
    (h : process_historical_chart_response df interval s e = some out) :
    process_historical_chart_response out interval' s' e' = none := by
  have hc : out.cols = canonCols := process_cols h
  have hsel : selectCols srcCols out = none := by
    unfold selectCols
    rw [hc]
    rfl
  unfold process_historical_chart_response
  rw [hsel]
  rfl

/-- Input frame for the C9 witness and counterexample: one raw candle row at
epoch 40000000 ms (time-of-day 11:06:40, inside the session window). -/
def c9df : Frame := ⟨srcCols, [[40000000, 10, 20, 5, 15, 100]]⟩

/-- Output of normalizing `c9df` at interval `'3'`: a deduplicated, sorted,
in-window table (datetime 39720000 ms, time-of-day 11:02:00). -/
def c9out : Frame := ⟨canonCols, [[39720000, 10, 20, 5, 15, 100]]⟩

/-- Claim C9 counterexample: normalizing the already-normalized table `c9out`
(one row, deduplicated, sorted ascending, in the session window) does not
reproduce it — it yields absence, so normalization is not a no-op on its own
output. -/
theorem c9_counterexample :
    process_historical_chart_response c9df "3" 0 0 = some c9out ∧
    inSession 39720000 = true ∧ sortedAsc [39720000] = true ∧
    process_historical_chart_response c9out "3" 0 0 = none ∧
    process_historical_chart_response c9out "3" 0 0 ≠ some c9out := by
  refine ⟨by decide, by decide, by decide, by decide, by decide⟩

/-- Witness for `c9_not_idempotent` at the concrete frame `c9df`. -/
theorem c9_not_idempotent_witness :
    process_historical_chart_response c9out "3" 0 0 = none :=
  c9_not_idempotent c9df "3" 0 0 c9out "3" 0 0 (by decide)

/-! ## Claim C8 -/

/-- Claim C8 (amended): a zero-row table that still carries the six source
columns is normalized to an empty table with the canonical column names, for
every interval; but a completely empty table (no columns, as produced by
`pd.DataFrame()`), lacking the source columns, makes the normalizer return
absence (`none`), and the empty-payload path of `fetch_historical_data` in
`nsemine/stocks.py` likewise returns absence because assigning the six
canonical names to a zero-column table raises `ValueError`. -/
theorem c8_empty_input (interval : String) (s e : Int) (i2 : Int) :
    process_historical_chart_response ⟨srcCols, []⟩ interval s e
      = some ⟨canonCols, []⟩ ∧
    process_historical_chart_response ⟨[], []⟩ interval s e = none ∧
    fetch_historical_data_tail ⟨[], []⟩ i2 = none := by
  refine ⟨?_, ?_, rfl⟩
  · unfold process_historical_chart_response
    have hsel : selectCols srcCols ⟨srcCols, []⟩ = some ⟨srcCols, []⟩ := rfl
    rw [hsel]
    rw [Option.some_bind]
    by_cases hD : interval = "D" ∨ interval = "W" ∨ interval = "M"
    · rw [if_pos hD]
      rfl
    · rw [if_neg hD]
      rfl
  · unfold process_historical_chart_response
    have hsel : selectCols srcCols ⟨[], []⟩ = none := rfl
    rw [hsel]
    rfl

/-- Claim C8 counterexample: for the empty input table (no columns, no rows)
the normalizer returns absence (`none`) rather than an empty table with
canonical column names. -/
theorem c8_counterexample :
    process_historical_chart_response ⟨[], []⟩ "3" 0 0 = none := by decide

/-! ## Claim C10 -/

/-- Claim C10: when the supplied warm-up (`initial_url`) GET raises, the whole
`get_request` call returns `None` immediately, with zero physical attempts
against the target URL and no sleeps; when the warm-up succeeds (or no
warm-up URL is supplied) the three-iteration retry loop runs. -/
theorem c10_warmup_failure (oc : Nat → Option Nat) (j : Nat → ℚ) :
    get_request .raisesErr oc j = ⟨none, ⟨0, []⟩⟩ ∧
    get_request .ok oc j = getRequestLoop oc j 3 0 ∧
    get_request .noUrl oc j = getRequestLoop oc j 3 0 :=
  ⟨rfl, rfl, rfl⟩

/-! ## Claim C6 -/

/-- Codec environment exhibiting the uncaught gzip error path: the bare
two-byte gzip magic (a truncated stream) fails with an uncaught exception
class, as `EOFError` does in the source; one longer gzip fixture decodes;
every other gzip failure is of the caught `OSError` class; and the non-gzip
rungs all fail with their caught classes. -/
def c6badenv : CodecEnv where
  gzip := fun b =>
    if b = [0x1f, 0x8b] then .uncaught
    else if b = [0x1f, 0x8b, 7] then .ok [1]
    else .caught
  zlibStd := fun _ => none
  zlibRaw := fun _ => none
  brotli := fun _ => none
  zstd := fun _ => none

/-- Claim C6 (code bug): `decompress_data` does NOT satisfy "never raises".
On the truncated gzip-magic input (the bare two-byte magic) the gzip attempt
fails with an exception class the `except OSError` clause does not catch
(`EOFError` in the source), so the exception propagates to the caller
(`Except.error`) instead of the input being returned unchanged, contradicting
the claim and the function's own docstring.  The intended paths do hold:
empty input yields empty, a non-gzip blob failing every codec with a caught
exception is returned unchanged, and a decodable gzip blob yields its
plaintext. -/
theorem c6_decompress_raises :
    decompress_data c6badenv [0x1f, 0x8b] = .error () ∧
    hasGzipMagic [0x1f, 0x8b] = true ∧
    decompress_data c6badenv [] = .ok [] ∧
    decompress_data c6badenv [9, 9, 9] = .ok [9, 9, 9] ∧
    decompress_data c6badenv [0x1f, 0x8b, 7] = .ok [1] :=
  ⟨rfl, rfl, rfl, rfl, rfl⟩

/-! ## Claim C3 -/

/-- Duplicate removal returns a sublist of the input rows (relative order is
preserved, nothing is re-sorted). -/
theorem dedupRowsBy_sublist (i : Nat) : ∀ (rs : List Row) (seen : List Int),
    List.Sublist (dedupRowsBy i seen rs) rs := by
  intro rs
  induction rs with
  | nil => intro seen; exact List.Sublist.refl []
  | cons r rs ih =>
    intro seen
    rw [dedupRowsBy]
    by_cases hc : seenHas (r.getD i 0) seen = true
    · rw [if_pos hc]
      exact List.Sublist.cons r (ih seen)
    · rw [if_neg hc]
      exact List.Sublist.cons₂ r (ih _)

/-- The keys of the deduplicated rows are the deduplicated keys. -/
theorem dedupRowsBy_map_keys (i : Nat) : ∀ (rs : List Row) (seen : List Int),
    (dedupRowsBy i seen rs).map (fun r => r.getD i 0)
      = dedupKeys seen (rs.map (fun r => r.getD i 0)) := by
  intro rs
  induction rs with
  | nil => intro seen; rfl
  | cons r rs ih =>
    intro seen
    rw [dedupRowsBy, List.map_cons, dedupKeys]
    by_cases hc : seenHas (r.getD i 0) seen = true
    · rw [if_pos hc, if_pos hc]
      exact ih seen
    · rw [if_neg hc, if_neg hc, List.map_cons, ih]

/-- Keys surviving deduplication were not among the already-seen keys. -/
theorem dedupKeys_not_seen : ∀ (ks seen : List Int) (k : Int),
    k ∈ dedupKeys seen ks → seenHas k seen = false := by
  intro ks
  induction ks with
  | nil => intro seen k hk; exact absurd hk (by simp [dedupKeys])
  | cons a ks ih =>
    intro seen k hk
    rw [dedupKeys] at hk
    by_cases hc : seenHas a seen = true
    · rw [if_pos hc] at hk
      exact ih seen k hk
    · rw [if_neg hc] at hk
      rcases List.mem_cons.mp hk with rfl | hk
      · exact eq_false_of_ne_true hc
      · have h2 := ih (a :: seen) k hk
        rw [seenHas] at h2
        by_cases hak : a = k
        · rw [if_pos hak] at h2; exact absurd h2 (by simp)
        · rwa [if_neg hak] at h2

/-- Deduplicated keys contain no duplicates. -/
theorem dedupKeys_nodup : ∀ (ks seen : List Int),
    (dedupKeys seen ks).Nodup := by
  intro ks
  induction ks with
  | nil => intro seen; exact List.nodup_nil
  | cons a ks ih =>
    intro seen
    rw [dedupKeys]
    by_cases hc : seenHas a seen = true
    · rw [if_pos hc]; exact ih seen
    · rw [if_neg hc]
      refine List.nodup_cons.mpr ⟨?_, ih (a :: seen)⟩
      intro hmem
      have := dedupKeys_not_seen ks (a :: seen) a hmem
      rw [seenHas, if_pos rfl] at this
      exact absurd this (by simp)

/-- The adjacent-pairs ascending check is pairwise ascendingness. -/
theorem sortedAsc_iff_pairwise (l : List Int) :
    sortedAsc l = true ↔ List.Pairwise (· ≤ ·) l := by
  induction l with
  | nil => simp [sortedAsc]
  | cons a t ih =>
    cases t with
    | nil => simp [sortedAsc]
    | cons b t' =>
      rw [sortedAsc]
      simp only [Bool.and_eq_true, decide_eq_true_eq]
      rw [ih]
      constructor
      · rintro ⟨hab, hp⟩
        refine List.Pairwise.cons ?_ hp
        intro x hx
        rcases List.mem_cons.mp hx with rfl | hx
        · exact hab
        · exact le_trans hab (List.rel_of_pairwise_cons hp hx)
      · intro hp
        rcases List.pairwise_cons.mp hp with ⟨ha, hp'⟩
        exact ⟨ha b (List.mem_cons_self b t'), hp'⟩

/-- Ascending order survives passing to a sublist. -/
theorem sortedAsc_sublist {l' l : List Int} (hs : List.Sublist l' l)
    (h : sortedAsc l = true) : sortedAsc l' = true := by
  rw [sortedAsc_iff_pairwise] at h ⊢
  exact List.Pairwise.sublist hs h

/-- Claim C3 (amended): the final step of the historical pipeline removes rows
with duplicate timestamps keeping the first occurrence and resets to a dense
zero-based index (row positions in the list model), but performs no re-sort:
the surviving rows are a sublist of the input rows in their original order,
so the result is sorted ascending when the input already was — not in
general. -/
theorem c3_dedup_keep_first_no_sort (f g : Frame)
    (h : drop_duplicates_datetime f = some g) :
    g.cols = f.cols ∧
    List.Sublist g.rows f.rows ∧
    colValsD "datetime" g = dedupKeys [] (colValsD "datetime" f) ∧
    (colValsD "datetime" g).Nodup ∧
    (sortedAsc (colValsD "datetime" f) = true →
      sortedAsc (colValsD "datetime" g) = true) := by
  unfold drop_duplicates_datetime at h
  cases hidx : colIdx "datetime" f.cols with
  | none => rw [hidx] at h; exact absurd h (by simp)
  | some i =>
    rw [hidx] at h
    cases h
    have hgkeys : colValsD "datetime" ⟨f.cols, dedupRowsBy i [] f.rows⟩
        = (dedupRowsBy i [] f.rows).map (fun r => r.getD i 0) := by
      simp [colValsD, colVals, hidx]
    have hfkeys : colValsD "datetime" f = f.rows.map (fun r => r.getD i 0) := by
      simp [colValsD, colVals, hidx]
    refine ⟨rfl, dedupRowsBy_sublist i f.rows [], ?_, ?_, ?_⟩
    · rw [hgkeys, hfkeys, dedupRowsBy_map_keys]
    · rw [hgkeys, dedupRowsBy_map_keys]
      exact dedupKeys_nodup _ _
    · intro hs
      rw [hfkeys] at hs
      rw [hgkeys]
      exact sortedAsc_sublist
        (List.Sublist.map _ (dedupRowsBy_sublist i f.rows [])) hs

/-- Raw input for the C3 counterexample: two in-session candle rows with
timestamps out of order (epoch ms). -/
def c3df : Frame :=
  ⟨srcCols, [[50000000, 1, 1, 1, 1, 1], [40000000, 2, 2, 2, 2, 2]]⟩

/-- Pipeline output for `c3df`: the rows keep their original (descending)
order. -/
def c3out : Frame :=
  ⟨canonCols, [[49740000, 1, 1, 1, 1, 1], [39720000, 2, 2, 2, 2, 2]]⟩

/-- Claim C3 counterexample: with out-of-order input rows, the full pipeline
(normalize, drop duplicates, reset index) returns a table that is NOT sorted
ascending by timestamp, refuting the claim that the returned table is always
sorted ascending. -/
theorem c3_counterexample :
    fetch_pipeline c3df "3" 0 0 = some c3out ∧
    colValsD "datetime" c3out = [49740000, 39720000] ∧
    sortedAsc [49740000, 39720000] = false :=
  ⟨by decide, by decide, by decide⟩

/-- Frame with a duplicated timestamp for the C3 witness. -/
def c3wdf : Frame :=
  ⟨canonCols, [[5, 0, 0, 0, 0, 0], [5, 1, 1, 1, 1, 1], [3, 2, 2, 2, 2, 2]]⟩

/-- Deduplicated form of `c3wdf`: first occurrence of timestamp 5 kept. -/
def c3wout : Frame :=
  ⟨canonCols, [[5, 0, 0, 0, 0, 0], [3, 2, 2, 2, 2, 2]]⟩

/-- Witness for `c3_dedup_keep_first_no_sort` at a concrete frame with one
duplicated timestamp. -/
theorem c3_dedup_keep_first_no_sort_witness :
    c3wout.cols = c3wdf.cols ∧
    List.Sublist c3wout.rows c3wdf.rows ∧
    colValsD "datetime" c3wout = dedupKeys [] (colValsD "datetime" c3wdf) ∧
    (colValsD "datetime" c3wout).Nodup ∧
    (sortedAsc (colValsD "datetime" c3wdf) = true →
      sortedAsc (colValsD "datetime" c3wout) = true) :=
  c3_dedup_keep_first_no_sort c3wdf c3wout (by decide)

/-! ## Claim C1 -/

/-- Claim C1 (amended): for a raw minute-interval candle row inside the
session window, the lite normalizer shifts the reported end-of-candle
timestamp backward by `liteOffsetSeconds interval` seconds before minute
rounding, where the interval minutes are clamped: the offset is
`(1-1)*60+59 = 59` seconds for interval `'1'` and `(5-1)*60+59 = 299` seconds
for EVERY other minute interval (so a 3-minute candle is shifted by 299
seconds, not 179); no shift is applied for `'D'`/`'W'`/`'M'` bars.  The
unclamped formula `(interval_minutes - 1) * 60 + 59` is used only by
`fetch_historical_data` in `nsemine/stocks.py` (via `timedelta.seconds`),
giving 179 seconds for a 3-minute interval. -/
theorem c1_timestamp_shift (interval : String) (t o h l c v s e : Int) :
    (interval ≠ "D" → interval ≠ "W" → interval ≠ "M" → inSession t = true →
      process_historical_chart_response
          ⟨srcCols, [[t, o, h, l, c, v]]⟩ interval s e
        = some ⟨canonCols,
            [[roundMinute (t - liteOffsetSeconds interval * 1000),
              o, h, l, c, v]]⟩) ∧
    ((interval = "D" ∨ interval = "W" ∨ interval = "M") →
      process_historical_chart_response
          ⟨srcCols, [[t, o, h, l, c, v]]⟩ interval s e
        = some ⟨canonCols, [[t, o, h, l, c, v]]⟩) ∧
    liteOffsetSeconds "1" = 59 ∧
    liteOffsetSeconds "3" = 299 ∧
    (interval ≠ "1" → liteOffsetSeconds interval = 299) ∧
    (∀ n : Int, 1 ≤ n → (n - 1) * 60 + 59 < 86400 →
      stocksTimeOffsetSeconds n = (n - 1) * 60 + 59) ∧
    stocksTimeOffsetSeconds 3 = 179 := by
  have hsel : selectCols srcCols ⟨srcCols, [[t, o, h, l, c, v]]⟩
      = some ⟨srcCols, [[t, o, h, l, c, v]]⟩ := rfl
  refine ⟨?_, ?_, by decide, by decide, ?_, ?_, by decide⟩
  · intro hD hW hM hs
    unfold process_historical_chart_response
    rw [hsel, Option.some_bind]
    rw [if_neg (by simp [hD, hW, hM])]
    have hren : renameCol "time" "datetime"
        (⟨srcCols, [[t, o, h, l, c, v]]⟩ : Frame)
        = ⟨canonCols, [[t, o, h, l, c, v]]⟩ := rfl
    rw [hren]
    have hrem : remove_pre_and_post_market_prices_from_df
        (⟨canonCols, [[t, o, h, l, c, v]]⟩ : Frame)
        = some ⟨canonCols, [[t, o, h, l, c, v]]⟩ := by
      unfold remove_pre_and_post_market_prices_from_df filterOnCol
      dsimp only
      rw [show colIdx "datetime" canonCols = some 0 by decide]
      simp [List.filter_cons, List.getD_cons_zero, hs]
    rw [hrem, Option.some_bind]
    rfl
  · intro hD
    unfold process_historical_chart_response
    rw [hsel, Option.some_bind, if_pos hD]
    rfl
  · intro h1
    unfold liteOffsetSeconds liteMinutes
    rw [if_neg h1]
    norm_num
  · intro n h1 h2
    unfold stocksTimeOffsetSeconds
    refine Int.emod_eq_of_lt (by omega) h2

/-- Claim C1 counterexample: a 3-minute candle reported at epoch 41000000 ms
opens, according to the normalizer, at 40740000 ms (a 299-second shift before
rounding); the claimed 179-second shift would give 40860000 ms instead. -/
theorem c1_counterexample :
    process_historical_chart_response
        ⟨srcCols, [[41000000, 10, 20, 5, 15, 100]]⟩ "3" 0 0
      = some ⟨canonCols, [[40740000, 10, 20, 5, 15, 100]]⟩ ∧
    roundMinute (41000000 - 179 * 1000) = 40860000 ∧
    (40740000 : Int) ≠ 40860000 :=
  ⟨by decide, by decide, by decide⟩

/-- Witness for `c1_timestamp_shift` at concrete inputs: a 3-minute candle
row in the session window, a daily bar, a 15-minute offset, and the stocks
formula at interval 5. -/
theorem c1_timestamp_shift_witness :
    process_historical_chart_response
        ⟨srcCols, [[41000000, 1, 2, 3, 4, 5]]⟩ "3" 0 0
      = some ⟨canonCols,
          [[roundMinute (41000000 - liteOffsetSeconds "3" * 1000),
            1, 2, 3, 4, 5]]⟩ ∧
    process_historical_chart_response
        ⟨srcCols, [[41000000, 1, 2, 3, 4, 5]]⟩ "D" 0 0
      = some ⟨canonCols, [[41000000, 1, 2, 3, 4, 5]]⟩ ∧
    liteOffsetSeconds "15" = 299 ∧
    stocksTimeOffsetSeconds 5 = (5 - 1) * 60 + 59 :=
  ⟨(c1_timestamp_shift "3" 41000000 1 2 3 4 5 0 0).1
      (by decide) (by decide) (by decide) (by decide),
   (c1_timestamp_shift "D" 41000000 1 2 3 4 5 0 0).2.1 (Or.inl rfl),
   (c1_timestamp_shift "15" 0 0 0 0 0 0 0 0).2.2.2.2.1 (by decide),
   (c1_timestamp_shift "x" 0 0 0 0 0 0 0 0).2.2.2.2.2.1 5
      (by decide) (by decide)⟩

/-! ## HTTP loop lemmas -/

/-- While the cached cookie stays fresh and non-empty, the retry loop never
alters the session state: every in-loop refresh loads the truthy cached
bundle and returns it unchanged. -/
theorem httpGetLoop_finalSt_fresh (oc : Nat → Option Nat) (now : Int)
    (bres : Option Cookie) (c : Cookie)
    (hc : c ≠ ([] : List (String × String))) :
    ∀ (fuel attempt : Nat) (s : SessionSt),
      load_cookie s.cache now = some c →
      (httpGetLoop oc now bres fuel attempt s).finalSt = s := by
  intro fuel
  induction fuel with
  | zero => intro attempt s _; rfl
  | succ n ih =>
    intro attempt s h
    cases har : attemptResult (oc attempt) with
    | some status => simp only [httpGetLoop, har]
    | none =>
      have href : (refresh_cookie now bres s).2 = s := by
        unfold refresh_cookie
        rw [h]
        dsimp only
        rw [if_neg hc]
      simp only [httpGetLoop, har, href, ite_self]
      exact ih (attempt + 1) s h

/-- The in-loop cookie refresh happens only at attempt 0: from any later
attempt on, the session state is never touched. -/
theorem httpGetLoop_finalSt_of_pos (oc : Nat → Option Nat) (now : Int)
    (bres : Option Cookie) :
    ∀ (fuel attempt : Nat) (s : SessionSt), attempt ≠ 0 →
      (httpGetLoop oc now bres fuel attempt s).finalSt = s := by
  intro fuel
  induction fuel with
  | zero => intro attempt s _; rfl
  | succ n ih =>
    intro attempt s h
    cases har : attemptResult (oc attempt) with
    | some status => simp only [httpGetLoop, har]
    | none =>
      simp only [httpGetLoop, har, if_neg h]
      exact ih (attempt + 1) s (Nat.succ_ne_zero _)

/-- When every remaining attempt fails, the loop returns `none` after exactly
`fuel` attempts, sleeping the exponential backoff after each one. -/
theorem httpGetLoop_all_fail (oc : Nat → Option Nat) (now : Int)
    (bres : Option Cookie) :
    ∀ (fuel attempt : Nat) (s : SessionSt),
      (∀ i, attempt ≤ i → i < attempt + fuel → attemptResult (oc i) = none) →
      (httpGetLoop oc now bres fuel attempt s).res = none ∧
      (httpGetLoop oc now bres fuel attempt s).stats.attempts = fuel ∧
      (httpGetLoop oc now bres fuel attempt s).stats.sleeps
        = (List.range fuel).map (fun k => ((3 : ℚ) / 2) ^ (attempt + k)) := by
  intro fuel
  induction fuel with
  | zero => intro attempt s _; exact ⟨rfl, rfl, rfl⟩
  | succ n ih =>
    intro attempt s h
    have hfail : attemptResult (oc attempt) = none :=
      h attempt le_rfl (by omega)
    obtain ⟨ih1, ih2, ih3⟩ := ih (attempt + 1)
      (if attempt = 0 then (refresh_cookie now bres s).2 else s)
      (fun i h1 h2 => h i (by omega) (by omega))
    refine ⟨?_, ?_, ?_⟩
    · simp only [httpGetLoop, hfail]
      exact ih1
    · simp only [httpGetLoop, hfail]
      rw [ih2]
    · simp only [httpGetLoop, hfail]
      rw [ih3, List.range_succ_eq_map, List.map_cons, List.map_map]
      refine congrArg₂ _ (by rw [Nat.add_zero]) ?_
      refine List.map_congr_left ?_
      intro a _
      show ((3 : ℚ) / 2) ^ (attempt + 1 + a) = ((3 : ℚ) / 2) ^ (attempt + (a + 1))
      congr 1
      omega

/-- A successful first remaining attempt returns immediately with one attempt
and no sleeps, leaving the session state unchanged. -/
theorem httpGetLoop_first_success (oc : Nat → Option Nat) (now : Int)
    (bres : Option Cookie) (k attempt : Nat) (s : SessionSt) (status : Nat)
    (h : attemptResult (oc attempt) = some status) :
    httpGetLoop oc now bres (k + 1) attempt s
      = ⟨some status, s, ⟨1, 0, []⟩⟩ := by
  simp only [httpGetLoop, h]

/-- `getRequestLoop` analogue of `httpGetLoop_all_fail`, with backoff
`2 ^ idx + jitter`. -/
theorem getRequestLoop_all_fail (oc : Nat → Option Nat) (j : Nat → ℚ) :
    ∀ (fuel idx : Nat),
      (∀ i, idx ≤ i → i < idx + fuel → getAttemptResult (oc i) = none) →
      (getRequestLoop oc j fuel idx).res = none ∧
      (getRequestLoop oc j fuel idx).stats.attempts = fuel ∧
      (getRequestLoop oc j fuel idx).stats.sleeps
        = (List.range fuel).map
            (fun k => (2 : ℚ) ^ (idx + k) + j (idx + k)) := by
  intro fuel
  induction fuel with
  | zero => intro idx _; exact ⟨rfl, rfl, rfl⟩
  | succ n ih =>
    intro idx h
    have hfail : getAttemptResult (oc idx) = none := h idx le_rfl (by omega)
    obtain ⟨ih1, ih2, ih3⟩ := ih (idx + 1)
      (fun i h1 h2 => h i (by omega) (by omega))
    refine ⟨?_, ?_, ?_⟩
    · simp only [getRequestLoop, hfail]
      exact ih1
    · simp only [getRequestLoop, hfail]
      rw [ih2]
    · simp only [getRequestLoop, hfail]
      rw [ih3, List.range_succ_eq_map, List.map_cons, List.map_map]
      refine congrArg₂ _ (by rw [Nat.add_zero]) ?_
      refine List.map_congr_left ?_
      intro a _
      show (2 : ℚ) ^ (idx + 1 + a) + j (idx + 1 + a)
          = (2 : ℚ) ^ (idx + (a + 1)) + j (idx + (a + 1))
      have hadd : idx + 1 + a = idx + (a + 1) := by omega
      rw [hadd]

/-- `getRequestLoop` analogue of `httpGetLoop_first_success`. -/
theorem getRequestLoop_first_success (oc : Nat → Option Nat) (j : Nat → ℚ)
    (k idx : Nat) (status : Nat)
    (h : getAttemptResult (oc idx) = some status) :
    getRequestLoop oc j (k + 1) idx = ⟨some status, ⟨1, []⟩⟩ := by
  simp only [getRequestLoop, h]

/-! ## Claim C2 -/

/-- Claim C2 (amended): after a first-attempt transport failure the fetcher
re-invokes the cookie routine (`_refresh_cookie`), but that routine performs
a fresh bootstrap request only when the loaded bundle is missing, stale, or
empty (the `if cookie:` truthiness test); when the cached bundle is still
fresh (younger than the 2-hour TTL) AND non-empty it is reused unchanged and
no bootstrap request is issued at all during the fetch.  A bootstrap IS
re-issued on first-attempt failure when the initial refresh also failed to
leave a fresh truthy bundle: e.g. cache missing with the bootstrap GET
raising, or a fresh cache file whose stored cookie dict is empty. -/
theorem c2_refresh_on_first_failure (oc : Nat → Option Nat) (now : Int)
    (bres : Option Cookie) (mr : Nat) (cache0 : CacheState) :
    (∀ c : Cookie, load_cookie cache0 now = some c →
      c ≠ ([] : List (String × String)) →
      (http_get oc cache0 now bres mr).finalSt.bootstrapCount = 0) ∧
    (cache0 = .missing → bres = none → attemptResult (oc 0) = none →
      1 ≤ mr →
      (http_get oc cache0 now bres mr).finalSt.bootstrapCount = 2) ∧
    (∀ t : Int, cache0 = .stored ([] : List (String × String)) t →
      now - t < 7200 → bres = none → attemptResult (oc 0) = none →
      1 ≤ mr →
      (http_get oc cache0 now bres mr).finalSt.bootstrapCount = 2) := by
  refine ⟨?_, ?_, ?_⟩
  · intro c h hc
    unfold http_get
    have h0 : load_cookie (⟨cache0, 0⟩ : SessionSt).cache now = some c := h
    have href : (refresh_cookie now bres ⟨cache0, 0⟩).2 = ⟨cache0, 0⟩ := by
      unfold refresh_cookie
      rw [h0]
      dsimp only
      rw [if_neg hc]
    dsimp only
    rw [href, httpGetLoop_finalSt_fresh oc now bres c hc mr 0 ⟨cache0, 0⟩ h0]
  · rintro rfl rfl hfail hmr
    obtain ⟨k, rfl⟩ : ∃ k, mr = k + 1 := ⟨mr - 1, by omega⟩
    unfold http_get
    have hs1 : (refresh_cookie now none ⟨CacheState.missing, 0⟩).2
        = ⟨CacheState.missing, 1⟩ := rfl
    dsimp only
    rw [hs1]
    simp only [httpGetLoop, hfail, if_pos rfl, ite_true]
    have hs2 : (refresh_cookie now none ⟨CacheState.missing, 1⟩).2
        = ⟨CacheState.missing, 2⟩ := rfl
    rw [hs2, httpGetLoop_finalSt_of_pos oc now none k (0 + 1)
      ⟨CacheState.missing, 2⟩ (by omega)]
  · rintro t rfl hfresh rfl hfail hmr
    obtain ⟨k, rfl⟩ : ∃ k, mr = k + 1 := ⟨mr - 1, by omega⟩
    have hload : ∀ b : Nat, load_cookie
        (⟨CacheState.stored ([] : List (String × String)) t, b⟩
          : SessionSt).cache now
        = some ([] : List (String × String)) := by
      intro b
      unfold load_cookie COOKIE_TTL_SECONDS
      dsimp only
      rw [if_pos hfresh]
    have hs1 : (refresh_cookie now none
        ⟨CacheState.stored ([] : List (String × String)) t, 0⟩).2
        = ⟨CacheState.stored ([] : List (String × String)) t, 1⟩ := by
      unfold refresh_cookie
      rw [hload 0]
      dsimp only
      rw [if_pos rfl]
    have hs2 : (refresh_cookie now none
        ⟨CacheState.stored ([] : List (String × String)) t, 1⟩).2
        = ⟨CacheState.stored ([] : List (String × String)) t, 2⟩ := by
      unfold refresh_cookie
      rw [hload 1]
      dsimp only
      rw [if_pos rfl]
    unfold http_get
    dsimp only
    rw [hs1]
    simp only [httpGetLoop, hfail, if_pos rfl, ite_true]
    rw [hs2, httpGetLoop_finalSt_of_pos oc now none k (0 + 1)
      ⟨CacheState.stored ([] : List (String × String)) t, 2⟩ (by omega)]

/-- Attempt outcomes for the C2 counterexample and witness: a transport error
on the first attempt, then a 200 response. -/
def c2oc : Nat → Option Nat := fun i => if i = 0 then none else some 200

/-- A fresh cached cookie bundle for the C2 counterexample. -/
def c2cookie : Cookie := [("nsit", "a")]

/-- Claim C2 counterexample: a fetch whose first physical attempt fails with a
transport error while the cached bundle is still fresh (captured at 100,
queried at 200, well inside the 2-hour TTL) issues ZERO bootstrap requests —
the re-run of the cookie routine reuses the cached bundle instead of
refreshing it, refuting the unconditional-refresh claim. -/
theorem c2_counterexample :
    attemptResult (c2oc 0) = none ∧
    load_cookie (.stored c2cookie 100) 200 = some c2cookie ∧
    (http_get c2oc (.stored c2cookie 100) 200 (some [("x", "y")]) 2).res
      = some 200 ∧
    (http_get c2oc (.stored c2cookie 100) 200 (some [("x", "y")]) 2).finalSt
      = ⟨.stored c2cookie 100, 0⟩ ∧
    (http_get c2oc (.stored c2cookie 100) 200
      (some [("x", "y")]) 2).stats.attempts = 2 ∧
    (http_get c2oc (.stored c2cookie 100) 200
      (some [("x", "y")]) 2).stats.loopBootstraps = 0 ∧
    (http_get c2oc (.stored c2cookie 100) 200
      (some [("x", "y")]) 2).stats.sleeps = [1] := by
  refine ⟨by decide, by decide, by decide, by decide, by decide, by decide, ?_⟩
  rw [show (http_get c2oc (.stored c2cookie 100) 200
      (some [("x", "y")]) 2).stats.sleeps = [((3 : ℚ) / 2) ^ 0] from rfl]
  norm_num

/-- Attempt outcomes that always fail with a transport error. -/
def c2noc : Nat → Option Nat := fun _ => none

/-- Witness for `c2_refresh_on_first_failure`: with a fresh non-empty cached
bundle no bootstrap happens at all; with a missing cache and a raising
bootstrap GET, or with a fresh cache file storing an empty (falsy) cookie
dict, the first-attempt failure triggers a second bootstrap request. -/
theorem c2_refresh_on_first_failure_witness :
    (http_get c2oc (.stored c2cookie 50) 60 none 3).finalSt.bootstrapCount
      = 0 ∧
    (http_get c2noc .missing 0 none 3).finalSt.bootstrapCount = 2 ∧
    (http_get c2noc (.stored ([] : List (String × String)) 0) 5
      none 3).finalSt.bootstrapCount = 2 :=
  ⟨(c2_refresh_on_first_failure c2oc 60 none 3 (.stored c2cookie 50)).1
      c2cookie (by decide) (by decide),
   (c2_refresh_on_first_failure c2noc 0 none 3 .missing).2.1
      rfl rfl (by decide) (by decide),
   (c2_refresh_on_first_failure c2noc 5 none 3
      (.stored ([] : List (String × String)) 0)).2.2 0
      rfl (by decide) rfl (by decide) (by decide)⟩

/-! ## Claim C4 -/

/-- Claim C4: with `max_retries = 3` and every physical attempt failing, the
fetcher performs exactly 3 attempts, sleeps the backoff after each failed
attempt (total sleep = backoff(0) + backoff(1) + backoff(2)), and returns
absence (`None`) rather than raising — for `_http_get` with backoff
`1.5 ** attempt`, and for `scraper.get_request` (whose retry count is the
hard-coded 3) with backoff `2 ** retry_count` plus sub-second jitter. -/
theorem c4_retry_exhaustion (oc : Nat → Option Nat) (cache0 : CacheState)
    (now : Int) (bres : Option Cookie) (j : Nat → ℚ) :
    ((∀ i, i < 3 → attemptResult (oc i) = none) →
      (http_get oc cache0 now bres 3).res = none ∧
      (http_get oc cache0 now bres 3).stats.attempts = 3 ∧
      (http_get oc cache0 now bres 3).stats.sleeps = [1, 3 / 2, 9 / 4] ∧
      ((http_get oc cache0 now bres 3).stats.sleeps).sum = 19 / 4) ∧
    ((∀ i, i < 3 → getAttemptResult (oc i) = none) →
      (get_request .noUrl oc j).res = none ∧
      (get_request .noUrl oc j).stats.attempts = 3 ∧
      (get_request .noUrl oc j).stats.sleeps
        = [2 ^ 0 + j 0, 2 ^ 1 + j 1, 2 ^ 2 + j 2] ∧
      ((get_request .noUrl oc j).stats.sleeps).sum
        = (2 ^ 0 + j 0) + (2 ^ 1 + j 1) + (2 ^ 2 + j 2)) := by
  constructor
  · intro h
    obtain ⟨h1, h2, h3⟩ := httpGetLoop_all_fail oc now bres 3 0
      ((refresh_cookie now bres ⟨cache0, 0⟩).2)
      (fun i hl hu => h i (by omega))
    have hsl : (http_get oc cache0 now bres 3).stats.sleeps
        = [1, 3 / 2, 9 / 4] := by
      unfold http_get
      dsimp only
      rw [h3, show List.range 3 = [0, 1, 2] from rfl]
      simp only [List.map_cons, List.map_nil]
      norm_num
    exact ⟨h1, h2, hsl, by rw [hsl]; norm_num⟩
  · intro h
    obtain ⟨h1, h2, h3⟩ := getRequestLoop_all_fail oc j 3 0
      (fun i hl hu => h i (by omega))
    have hr : List.range 3 = [0, 1, 2] := rfl
    rw [hr] at h3
    simp only [List.map_cons, List.map_nil, Nat.zero_add] at h3
    have hsl : (get_request .noUrl oc j).stats.sleeps
        = [2 ^ 0 + j 0, 2 ^ 1 + j 1, 2 ^ 2 + j 2] := h3
    refine ⟨h1, h2, hsl, ?_⟩
    rw [hsl]
    simp [List.sum_cons]
    ring

/-- Witness attempt outcomes for C4: every attempt is a transport error. -/
def c4oc : Nat → Option Nat := fun _ => none

/-- Witness jitter for C4. -/
def c4j : Nat → ℚ := fun _ => 1 / 2

/-- Witness for `c4_retry_exhaustion` with all attempts failing. -/
theorem c4_retry_exhaustion_witness :
    ((http_get c4oc .missing 0 none 3).res = none ∧
      (http_get c4oc .missing 0 none 3).stats.attempts = 3 ∧
      (http_get c4oc .missing 0 none 3).stats.sleeps = [1, 3 / 2, 9 / 4] ∧
      ((http_get c4oc .missing 0 none 3).stats.sleeps).sum = 19 / 4) ∧
    ((get_request .noUrl c4oc c4j).res = none ∧
      (get_request .noUrl c4oc c4j).stats.attempts = 3 ∧
      (get_request .noUrl c4oc c4j).stats.sleeps
        = [2 ^ 0 + c4j 0, 2 ^ 1 + c4j 1, 2 ^ 2 + c4j 2] ∧
      ((get_request .noUrl c4oc c4j).stats.sleeps).sum
        = (2 ^ 0 + c4j 0) + (2 ^ 1 + c4j 1) + (2 ^ 2 + c4j 2)) :=
  ⟨(c4_retry_exhaustion c4oc .missing 0 none c4j).1 (fun i _ => rfl),
   (c4_retry_exhaustion c4oc .missing 0 none c4j).2 (fun i _ => rfl)⟩

/-! ## Claim C7 -/

/-- Claim C7 (amended): `_http_get` returns the response immediately on any
status outside the HTTP error range `[400, 600)` — in particular on every 2xx
status — ending the retry loop after one attempt; but in
`scraper.get_request` the immediate-return exit is taken ONLY for status
exactly 200: a 2xx status other than 200 is not returned, and a run in which
every attempt yields such a status sleeps and retries through all 3 attempts
and returns `None`. -/
theorem c7_success_exit (oc : Nat → Option Nat) (cache0 : CacheState)
    (now : Int) (bres : Option Cookie) (mr : Nat) (j : Nat → ℚ)
    (status : Nat) :
    (oc 0 = some status → ¬(400 ≤ status ∧ status < 600) → 1 ≤ mr →
      (http_get oc cache0 now bres mr).res = some status ∧
      (http_get oc cache0 now bres mr).stats.attempts = 1) ∧
    (oc 0 = some 200 →
      (get_request .noUrl oc j).res = some 200 ∧
      (get_request .noUrl oc j).stats.attempts = 1) ∧
    ((∀ i, i < 3 → oc i = some status) → 200 ≤ status → status < 300 →
      status ≠ 200 →
      (get_request .noUrl oc j).res = none ∧
      (get_request .noUrl oc j).stats.attempts = 3) := by
  refine ⟨?_, ?_, ?_⟩
  · intro h0 hno hmr
    obtain ⟨k, rfl⟩ : ∃ k, mr = k + 1 := ⟨mr - 1, by omega⟩
    have har : attemptResult (oc 0) = some status := by
      rw [h0]
      simp only [attemptResult]
      rw [if_neg hno]
    unfold http_get
    dsimp only
    rw [httpGetLoop_first_success oc now bres k 0 _ status har]
    exact ⟨rfl, rfl⟩
  · intro h0
    have har : getAttemptResult (oc 0) = some 200 := by
      rw [h0]
      decide
    show (getRequestLoop oc j 3 0).res = some 200 ∧
      (getRequestLoop oc j 3 0).stats.attempts = 1
    rw [getRequestLoop_first_success oc j 2 0 200 har]
    exact ⟨rfl, rfl⟩
  · intro h h200 h300 hne
    have hall : ∀ i, 0 ≤ i → i < 0 + 3 → getAttemptResult (oc i) = none := by
      intro i _ hi
      rw [h i (by omega)]
      simp only [getAttemptResult]
      rw [if_neg (show ¬(400 ≤ status ∧ status < 600) by omega), if_neg hne]
    obtain ⟨h1, h2, _⟩ := getRequestLoop_all_fail oc j 3 0 hall
    exact ⟨h1, h2⟩

/-- Attempt outcomes for the C7 counterexample: every response is HTTP 204, a
success-range status that is not 200. -/
def c7oc : Nat → Option Nat := fun _ => some 204

/-- Zero jitter for the C7 counterexample. -/
def c7j : Nat → ℚ := fun _ => 0

/-- Claim C7 counterexample: in `get_request`, a fetch whose every attempt
yields status 204 (a 2xx status) does NOT return the response: it retries all
3 attempts, sleeping in between, and returns `None`; the immediate-return
exit is taken only for status 200.  `_http_get`, by contrast, does return the
204 response immediately. -/
theorem c7_counterexample :
    (200 ≤ 204 ∧ 204 < 300 ∧ (204 : Nat) ≠ 200) ∧
    (get_request .noUrl c7oc c7j).res = none ∧
    (get_request .noUrl c7oc c7j).stats.attempts = 3 ∧
    (get_request .noUrl c7oc c7j).stats.sleeps = [1, 2, 4] ∧
    (http_get c7oc .missing 0 none 2).res = some 204 ∧
    (http_get c7oc .missing 0 none 2).stats.attempts = 1 ∧
    (http_get c7oc .missing 0 none 2).stats.sleeps = [] := by
  refine ⟨by decide, by decide, by decide, ?_, by decide, by decide, by decide⟩
  rw [show (get_request .noUrl c7oc c7j).stats.sleeps
      = [(2 : ℚ) ^ 0 + c7j 0, (2 : ℚ) ^ 1 + c7j 1, (2 : ℚ) ^ 2 + c7j 2]
      from rfl]
  norm_num [c7j]

/-- Attempt outcomes returning HTTP 200 immediately. -/
def c7oc200 : Nat → Option Nat := fun _ => some 200

/-- Witness for `c7_success_exit`: a 204 response returned immediately by
`_http_get`; a 200 returned immediately by `get_request`; all-204 runs of
`get_request` exhausting the loop. -/
theorem c7_success_exit_witness :
    ((http_get c7oc .missing 0 none 2).res = some 204 ∧
      (http_get c7oc .missing 0 none 2).stats.attempts = 1) ∧
    ((get_request .noUrl c7oc200 c4j).res = some 200 ∧
      (get_request .noUrl c7oc200 c4j).stats.attempts = 1) ∧
    ((get_request .noUrl c7oc c4j).res = none ∧
      (get_request .noUrl c7oc c4j).stats.attempts = 3) :=
  ⟨(c7_success_exit c7oc .missing 0 none 2 c4j 204).1
      rfl (by decide) (by decide),
   (c7_success_exit c7oc200 .missing 0 none 2 c4j 204).2.1 rfl,
   (c7_success_exit c7oc .missing 0 none 2 c4j 204).2.2
      (fun i _ => rfl) (by decide) (by decide) (by decide)⟩

end NSEmine
